import Mathlib

/-!
Shallow embedding of the SEO page grader (src/main.py) and verification of
the frozen claims about its scoring pipeline.

Numbers are modelled as exact rationals; the Python weights and thresholds
are all decimal literals that the program only adds, multiplies and divides,
so the rational model mirrors the arithmetic the source performs.
Guidance help-text strings are carried by the source catalog only to render
tooltips; they never influence control flow or scoring, so criteria are
embedded as (name, weight) pairs.
-/

/-- A catalog criterion: the gradable statement and its importance weight
(the third tuple component of the source, the tooltip text, is behaviorally
inert and omitted). -/
structure Criterion where
  name : String
  weight : ℚ
deriving DecidableEq

/-- Decides whether the character list n begins the character list h. -/
def charsLeading : List Char → List Char → Bool
  | [], _ => true
  | _ :: _, [] => false
  | a :: as, b :: bs => a == b && charsLeading as bs

/-- Decides whether the character list n occurs contiguously inside h. -/
def charsWithin : List Char → List Char → Bool
  | n, [] => charsLeading n []
  | n, h :: t => charsLeading n (h :: t) || charsWithin n t

/-- Embedding of the Python test `"optional" in criterion.lower()` from
get_user_input (src/main.py line 474). -/
def containsOptional (s : String) : Bool :=
  charsWithin "optional".toList (s.toList.map Char.toLower)

/-- The radio options offered for a criterion (src/main.py line 474):
three-way only when the criterion name mentions "optional". -/
def judgmentOptions (name : String) : List String :=
  if containsOptional name then ["Yes", "No", "N/A"] else ["Yes", "No"]

/-- The per-criterion record stored by get_user_input: the selected
response string and the criterion weight. -/
structure CriterionResponse where
  response : String
  weight : ℚ
deriving DecidableEq

/-- Loop body of get_user_input (src/main.py lines 471-477): `i` is the
enumeration index, `sel i` the option index the user selected for criterion
`i` (none when the widget was never touched; st.radio then reports its
initial value, index 1, which is "No" in both option lists; an out-of-range
index also falls back to "No", the getD default). -/
def get_user_input_from (i : Nat) (criteria : List Criterion)
    (sel : Nat → Option Nat) : List (String × CriterionResponse) :=
  match criteria with
  | [] => []
  | c :: rest =>
      (c.name, ⟨(judgmentOptions c.name).getD ((sel i).getD 1) "No", c.weight⟩)
        :: get_user_input_from (i + 1) rest sel

/-- Embedding of get_user_input (src/main.py lines 467-499): collects one
response record per criterion, keyed by criterion name. -/
def get_user_input (criteria : List Criterion) (sel : Nat → Option Nat) :
    List (String × CriterionResponse) :=
  get_user_input_from 0 criteria sel

/-- The `score` accumulator of calculate_score (src/main.py lines 504-506):
total weight of criteria answered "Yes". -/
def earnedWeight (inputs : List (String × CriterionResponse)) : ℚ :=
  (inputs.map (fun p => if p.2.response = "Yes" then p.2.weight else 0)).sum

/-- The `max_score` accumulator of calculate_score (src/main.py lines
504-508): total weight of criteria not answered "N/A". -/
def eligibleWeight (inputs : List (String × CriterionResponse)) : ℚ :=
  (inputs.map (fun p => if p.2.response ≠ "N/A" then p.2.weight else 0)).sum

/-- Embedding of calculate_score (src/main.py lines 501-509). -/
def calculate_score (inputs : List (String × CriterionResponse)) : ℚ :=
  if 0 < eligibleWeight inputs then
    earnedWeight inputs / eligibleWeight inputs * 10
  else 0

/-- Embedding of estimate_ranking (src/main.py lines 511-529). -/
def estimate_ranking (overall_score : ℚ) : String :=
  if overall_score ≥ 9.5 then "1-3"
  else if overall_score ≥ 9.0 then "4-6"
  else if overall_score ≥ 8.5 then "7-10"
  else if overall_score ≥ 8.0 then "11-15"
  else if overall_score ≥ 7.5 then "16-20"
  else if overall_score ≥ 7.0 then "21-30"
  else if overall_score ≥ 6.5 then "31-50"
  else if overall_score ≥ 6.0 then "51-100"
  else "100+"

/-- Embedding of the bucket_weights dict (src/main.py lines 454-458). -/
def bucket_weights : List (String × ℚ) :=
  [("On-Page", 0.55), ("Off-Page", 0.30), ("Technical", 0.15)]

/-- Embedding of the seo_factors table (src/main.py lines 35-451): buckets,
each a list of factors, each a list of weighted criteria. Dict insertion
order is kept as list order; names reproduce the source byte for byte
(including the mojibake ellipsis in the heading-hierarchy criterion). -/
def seo_factors : List (String × List (String × List Criterion)) :=
  [("On-Page",
    [("H1 Tag",
      [⟨"Is included on-page at top of heading hierarchy", 10⟩,
       ⟨"Contains proper length", 8⟩,
       ⟨"Contains primary keyword", 9⟩,
       ⟨"There is only a single H1 tag on-page", 8⟩]),
     ("Meta Title",
      [⟨"Contains proper length", 9⟩,
       ⟨"Contains primary keyword", 10⟩,
       ⟨"There is only a single meta title on-page", 8⟩]),
     ("Meta Description",
      [⟨"Contains proper length", 5⟩,
       ⟨"Contains primary keyword", 6⟩,
       ⟨"There is only a single meta description on-page", 4⟩,
       ⟨"Adequately describes the purpose of the page as a CTA", 5⟩]),
     ("Proper Heading Hierarchy",
      [⟨"Only a single H1; H2s follow H1 tag; H3s follow H2s, etcâ€¦", 7⟩]),
     ("Image Alt Text",
      [⟨"Images include alt text with target keyword", 3⟩,
       ⟨"Alt text properly describes imagery in a meaningful way", 2⟩]),
     ("Schema Markup",
      [⟨"Schema is included on-page as JSON-LD", 9⟩,
       ⟨"No errors or warnings with schema markup", 8⟩,
       ⟨"Schema markup matches page intent", 9⟩]),
     ("Internal Linking",
      [⟨"Other pages properly point to this one with target keyword included in anchor text", 7⟩,
       ⟨"This page logically drives users to the next anticipated step in the user journey", 6⟩,
       ⟨"This page doesn\x27t send users to a dead end experience / poor off-ramp", 5⟩]),
     ("User Engagement Metrics",
      [⟨"Bounce rate meets or exceeds baseline", 8⟩,
       ⟨"Time spent on-page meets or exceeds baseline", 9⟩,
       ⟨"CTR / average KW position meets or exceeds baseline", 8⟩,
       ⟨"Visits meet or exceed baseline", 7⟩,
       ⟨"Conversions / abandons meet or exceed baseline", 8⟩,
       ⟨"Scroll depth meets or exceeds baseline", 6⟩]),
     ("Primary Topic/Keyword Targeting",
      [⟨"Keyword is included above the fold in content", 10⟩,
       ⟨"Relevant secondary keywords are included within subheads / body copy of page", 7⟩,
       ⟨"Page matches expected keyword intent", 9⟩]),
     ("URL Slug",
      [⟨"Short length", 3⟩,
       ⟨"Omission of stop words", 2⟩,
       ⟨"Aligns with informational architecture of domain", 4⟩,
       ⟨"Lowercase only", 2⟩,
       ⟨"Hyphens only", 2⟩,
       ⟨"Non-parameterized (optional)", 1⟩,
       ⟨"ASCII characters only", 1⟩,
       ⟨"Depth of 5 or less from the homepage", 2⟩]),
     ("Quality of Content",
      [⟨"Accuracy", 10⟩,
       ⟨"Originality", 9⟩,
       ⟨"Tone of voice matches brand standards", 8⟩,
       ⟨"Topic completeness", 10⟩,
       ⟨"Readability", 8⟩,
       ⟨"Formatting (paragraph breaks, logical subheading structure)", 7⟩,
       ⟨"Content freshness / regularly updated", 9⟩,
       ⟨"Page matches expected user intent", 10⟩,
       ⟨"Other pages don\x27t cannibalize this one for content", 8⟩])]),
   ("Off-Page",
    [("Page Authority vs Top 10",
      [⟨"Page authority is greater than average of top 10 results", 7⟩]),
     ("Page Authority vs Top 3",
      [⟨"Page authority is greater than average of top 3 results", 9⟩]),
     ("Backlinks from Relevant Domains",
      [⟨"Backlinks are from topically relevant domains", 7⟩]),
     ("Backlink Placement",
      [⟨"Backlinks are placed higher up on sourced pages / are likely to be clicked", 3⟩]),
     ("Backlink Anchor Text",
      [⟨"Backlinks contain topically relevant anchor text", 6⟩]),
     ("Backlink Traffic",
      [⟨"Backlinks are placed on pages that actually drive visits", 7⟩])]),
   ("Technical",
    [("Canonical Tag",
      [⟨"Canonical tag contains self-reference", 6⟩]),
     ("Hreflang Tag",
      [⟨"Hreflang tag (optional) is correct, targets the right locations, and references other translated page equivalents", 6⟩]),
     ("Indexability",
      [⟨"Page is indexable by search engines / isn\x27t blocked by meta tags or robots.txt", 10⟩]),
     ("Sitemap Inclusion",
      [⟨"Page is included in sitemap.xml file", 2⟩]),
     ("Page Orphan Status",
      [⟨"Page isn\x27t orphaned", 2⟩]),
     ("Renderability",
      [⟨"Page elements are renderable by search engines", 6⟩]),
     ("Web Core Vitals",
      [⟨"Page passes Web Core Vitals metrics / exceeds industry average", 3⟩]),
     ("Mobile Friendliness",
      [⟨"Page is mobile-friendly and responsive", 8⟩]),
     ("HTTPS",
      [⟨"Page is served over HTTPS", 5⟩])])]

/-- Per-bucket score as computed at src/main.py lines 654-655: the sum of
calculate_score over the bucket factors, divided by the factor count. The
user selection `sel` is keyed by factor name then criterion index, matching
the `factor_i` widget keys. -/
def bucket_score (factors : List (String × List Criterion))
    (sel : String → Nat → Option Nat) : ℚ :=
  ((factors.map (fun fc => calculate_score (get_user_input fc.2 (sel fc.1)))).sum)
    / (factors.length : ℚ)

/-- The `scores` dict built by main (src/main.py lines 652-655), before the
"Overall" entry is added: one bucket score per catalog bucket. -/
def compute_scores (catalog : List (String × List (String × List Criterion)))
    (sel : String → Nat → Option Nat) : List (String × ℚ) :=
  catalog.map (fun bf => (bf.1, bucket_score bf.2 sel))

/-- Dict lookup with a default; main indexes bucket_weights only at keys
it knows are present, so the default 0 is never reached on program paths. -/
def weightOf (weights : List (String × ℚ)) (b : String) : ℚ :=
  ((weights.lookup b).getD 0)

/-- The overall score computed at src/main.py line 658:
sum of bucket score times bucket weight. -/
def overall_score (catalog : List (String × List (String × List Criterion)))
    (weights : List (String × ℚ)) (sel : String → Nat → Option Nat) : ℚ :=
  ((compute_scores catalog sel).map (fun p => p.2 * weightOf weights p.1)).sum

/-- The nested `inputs` dict built by main (src/main.py lines 642-647). -/
def build_inputs (sel : String → Nat → Option Nat) :
    List (String × List (String × List (String × CriterionResponse))) :=
  seo_factors.map (fun bf =>
    (bf.1, bf.2.map (fun fc => (fc.1, get_user_input fc.2 (sel fc.1)))))

/-- One element of the Word document produced by export_to_word: a heading
with its level, a plain paragraph, a bulleted item, or a numbered item. -/
inductive DocItem where
  | heading : Nat → String → DocItem
  | para : String → DocItem
  | bullet : String → DocItem
  | numbered : String → DocItem
deriving DecidableEq

/-- Embedding of the Python str.split(sep) for a single-character
separator, at the character level: "a\nb" gives two pieces, the empty
string gives one empty piece. -/
def splitOnChar (sep : Char) : List Char → List (List Char)
  | [] => [[]]
  | c :: rest =>
      match splitOnChar sep rest with
      | [] => if c == sep then [[], []] else [[c]]
      | g :: gs => if c == sep then [] :: g :: gs else (c :: g) :: gs

/-- Embedding of the Python str.strip(chars) used at src/main.py lines
587-595: removes the given characters from both ends. -/
def stripCharsList (cs : List Char) (stripset : List Char) : List Char :=
  ((cs.dropWhile (stripset.contains ·)).reverse.dropWhile (stripset.contains ·)).reverse

/-- Embedding of the bare Python str.strip() at src/main.py line 581:
removes whitespace from both ends. -/
def trimList (cs : List Char) : List Char :=
  ((cs.dropWhile Char.isWhitespace).reverse.dropWhile Char.isWhitespace).reverse

/-- Loop of export_to_word over the recommendation lines (src/main.py lines
579-604), threading the current_heading state; startswith and endswith are
the leading-characters tests on the line and its reverse. -/
def render_rec_lines : List (List Char) → Option String → List DocItem
  | [], _ => []
  | line :: rest, current_heading =>
      let l := trimList line
      if l.isEmpty then render_rec_lines rest current_heading
      else if charsLeading "###".toList l then
        DocItem.heading 2 ⟨stripCharsList l ['#', ' ']⟩ :: render_rec_lines rest none
      else if charsLeading "**".toList l && charsLeading "**".toList l.reverse then
        DocItem.heading 3 ⟨stripCharsList l ['*']⟩
          :: render_rec_lines rest (some ⟨stripCharsList l ['*']⟩)
      else if charsLeading ['-'] l || charsLeading ['*'] l then
        DocItem.bullet ⟨stripCharsList l ['-', ' ', '*']⟩
          :: render_rec_lines rest current_heading
      else if charsLeading ['1', '.'] l || charsLeading ['2', '.'] l ||
          charsLeading ['3', '.'] l then
        DocItem.numbered ⟨l⟩ :: render_rec_lines rest current_heading
      else
        match current_heading with
        | some h => DocItem.para (h ++ ": " ++ ⟨l⟩) :: render_rec_lines rest current_heading
        | none => DocItem.para ⟨l⟩ :: render_rec_lines rest current_heading

/-- The Recommendations body of export_to_word: the recommendation text is
split on newlines (src/main.py line 577) and rendered line by line. -/
def render_recommendations (recommendations : String) : List DocItem :=
  render_rec_lines (splitOnChar '\n' recommendations.toList) none

/-- Renders a rational score; stands in for the two-decimal Python format
specifier, whose digit string no claim depends on. -/
def formatScore (q : ℚ) : String := toString q.num ++ "/" ++ toString q.den

/-- The per-factor rows of the Selected Criteria section (src/main.py lines
612-614): one paragraph per criterion whose response is not "N/A". -/
def factor_checklist (responses : List (String × CriterionResponse)) : List DocItem :=
  responses.filterMap (fun p =>
    if p.2.response ≠ "N/A" then some (DocItem.para (p.1 ++ ": " ++ p.2.response))
    else none)

/-- The Selected Criteria section of export_to_word (src/main.py lines
606-614): iterates the catalog and renders each factor checklist from the
collected inputs (main always passes inputs keyed exactly like the catalog,
so the empty-list lookup defaults are never reached on program paths). -/
def selected_criteria
    (inputs : List (String × List (String × List (String × CriterionResponse)))) :
    List DocItem :=
  DocItem.heading 1 "Selected Criteria" ::
    seo_factors.flatMap (fun bf =>
      DocItem.heading 2 (bf.1 ++ " Factors") ::
        bf.2.flatMap (fun fc =>
          DocItem.heading 3 fc.1 ::
            factor_checklist ((((inputs.lookup bf.1).getD []).lookup fc.1).getD [])))

/-- Embedding of export_to_word (src/main.py lines 560-621) as the ordered
document item list it writes. -/
def export_to_word
    (inputs : List (String × List (String × List (String × CriterionResponse))))
    (scores : List (String × ℚ)) (recommendations : String)
    (estimated_ranking : String) : List DocItem :=
  [DocItem.heading 0 "SEO Audit Results", DocItem.heading 1 "Scores"]
    ++ scores.map (fun p => DocItem.para (p.1 ++ ": " ++ formatScore p.2 ++ "/10"))
    ++ [DocItem.heading 1 "Estimated Ranking",
        DocItem.para ("Based on the overall score of "
          ++ formatScore ((scores.lookup "Overall").getD 0)
          ++ "/10, the page might rank in positions: " ++ estimated_ranking),
        DocItem.heading 1 "Recommendations"]
    ++ render_recommendations recommendations
    ++ selected_criteria inputs

/-- Embedding of get_gpt4_recommendations (src/main.py lines 531-558): the
network round trip is abstracted as its outcome; on any exception the
function returns the fixed placeholder text. -/
def get_gpt4_recommendations (apiResult : Except String String) : String :=
  match apiResult with
  | Except.ok content => content
  | Except.error _ => "Unable to generate recommendations at this time."

/-- The report stage of main (src/main.py lines 685-697). The local Python
variable `recommendations` is assigned only inside the `if api_key:` branch;
it is modelled as an Option that is none on the no-key path, where the later
read at line 697 raises UnboundLocalError and no document is produced. -/
def main_report (apiKey : Option String) (apiResult : Except String String)
    (inputs : List (String × List (String × List (String × CriterionResponse))))
    (scores : List (String × ℚ)) (estimated_ranking : String) :
    Except String (List DocItem) :=
  let recommendations : Option String :=
    match apiKey with
    | some _ => some (get_gpt4_recommendations apiResult)
    | none => none
  match recommendations with
  | some recs => Except.ok (export_to_word inputs scores recs estimated_ranking)
  | none => Except.error "UnboundLocalError: recommendations"

/-- Decides whether the pattern occurs as a substring of s. -/
def strContains (s pat : String) : Bool := charsWithin pat.toList s.toList

/-- The H1 Tag criteria of the catalog, weighted 10, 8, 9, 8 — the factor
used by the concrete scenario of the spec (section 8, property 8). -/
def h1_criteria : List Criterion :=
  [⟨"Is included on-page at top of heading hierarchy", 10⟩,
   ⟨"Contains proper length", 8⟩,
   ⟨"Contains primary keyword", 9⟩,
   ⟨"There is only a single H1 tag on-page", 8⟩]

/-- The scenario catalog: one bucket containing the single H1 Tag factor. -/
def scenarioCatalog : List (String × List (String × List Criterion)) :=
  [("On-Page", [("H1 Tag", h1_criteria)])]

/-- The scenario bucket weights: the single bucket carries weight 1.0. -/
def scenarioWeights : List (String × ℚ) := [("On-Page", 1)]

/-- The scenario judgments Yes, Yes, No, Yes in criterion order: option
index 1 ("No") for the third criterion, option index 0 ("Yes") elsewhere. -/
def scenarioSel : String → Nat → Option Nat :=
  fun _ i => if i = 2 then some 1 else some 0

/-- The per-criterion responses the scenario produces for the H1 factor. -/
def scenarioInputs : List (String × CriterionResponse) :=
  get_user_input h1_criteria (scenarioSel "H1 Tag")

/-- A selection that gives the Hreflang Tag criterion (the only Technical
criterion offering "N/A") option index 2, that is "N/A", and leaves every
other widget untouched (so they report the default "No"). -/
def hreflangNASel : String → Nat → Option Nat :=
  fun f _ => if f = "Hreflang Tag" then some 2 else none

/-- The inputs main collects under hreflangNASel. -/
def inputsNA : List (String × List (String × List (String × CriterionResponse))) :=
  build_inputs hreflangNASel

/-- The name of the Hreflang criterion marked "N/A" in inputsNA. -/
def hreflangName : String :=
  "Hreflang tag (optional) is correct, targets the right locations, and references other translated page equivalents"

/-- The all-Yes selection: option index 0 ("Yes") for every criterion. -/
def allYesSel : String → Nat → Option Nat := fun _ _ => some 0

/-- A small concrete input set: one criterion answered Yes, one No. -/
def c1Example : List (String × CriterionResponse) :=
  [("a", ⟨"Yes", 2⟩), ("b", ⟨"No", 3⟩)]

/-- A concrete input set whose only criterion is answered N/A. -/
def c1ExampleNA : List (String × CriterionResponse) := [("a", ⟨"N/A", 2⟩)]

/-- The Technical bucket factor list, read off the catalog. -/
def technicalFactors : List (String × List Criterion) :=
  (seo_factors.getD 2 ("", [])).2

/- ======================  theorems  ====================== -/

theorem judgmentOptions_getD_zero (name : String) :
    (judgmentOptions name).getD 0 "No" = "Yes" := by
  unfold judgmentOptions; split <;> rfl

theorem judgmentOptions_getD_one (name : String) :
    (judgmentOptions name).getD 1 "No" = "No" := by
  unfold judgmentOptions; split <;> rfl

theorem judgmentOptions_getElem_zero (name : String) :
    (judgmentOptions name)[0]?.getD "No" = "Yes" := by
  unfold judgmentOptions; split <;> rfl

theorem judgmentOptions_getElem_one (name : String) :
    (judgmentOptions name)[1]?.getD "No" = "No" := by
  unfold judgmentOptions; split <;> rfl

theorem gui_from_names (i : Nat) (criteria : List Criterion) (sel : Nat → Option Nat) :
    (get_user_input_from i criteria sel).map Prod.fst = criteria.map Criterion.name := by
  induction criteria generalizing i with
  | nil => rfl
  | cons c rest ih => simp [get_user_input_from, ih]

theorem gui_from_unset (i : Nat) (criteria : List Criterion) :
    get_user_input_from i criteria (fun _ => none) =
      criteria.map (fun c => (c.name, ⟨"No", c.weight⟩)) := by
  induction criteria generalizing i with
  | nil => rfl
  | cons c rest ih =>
      simp [get_user_input_from, ih, judgmentOptions_getElem_one]

theorem gui_from_shape (i : Nat) (criteria : List Criterion) (sel : Nat → Option Nat) :
    ∀ p ∈ get_user_input_from i criteria sel, ∃ c ∈ criteria, ∃ k,
      p = (c.name, ⟨(judgmentOptions c.name).getD k "No", c.weight⟩) := by
  induction criteria generalizing i with
  | nil => intro p hp; cases hp
  | cons c rest ih =>
      intro p hp
      rcases hp with _ | ⟨_, hp⟩
      · exact ⟨c, by simp, (sel i).getD 1, rfl⟩
      · obtain ⟨c', hc', k, hk⟩ := ih (i + 1) p hp
        exact ⟨c', by simp [hc'], k, hk⟩

/-- C1: for every complete input set, calculate_score returns
10 * earned / eligible when the eligible weight is strictly positive, and
exactly 0 when the eligible weight is 0, in particular when every criterion
is judged N/A. -/
theorem claim_C1 (inputs : List (String × CriterionResponse)) :
    (0 < eligibleWeight inputs →
      calculate_score inputs = 10 * earnedWeight inputs / eligibleWeight inputs) ∧
    (eligibleWeight inputs = 0 → calculate_score inputs = 0) ∧
    ((∀ p ∈ inputs, p.2.response = "N/A") → calculate_score inputs = 0) := by
  refine ⟨fun h => ?_, fun h => ?_, fun h => ?_⟩
  · rw [calculate_score, if_pos h]; ring
  · simp [calculate_score, h]
  · have hz : eligibleWeight inputs = 0 := by
      unfold eligibleWeight
      apply List.sum_eq_zero
      intro x hx
      obtain ⟨p, hp, rfl⟩ := List.mem_map.mp hx
      simp [h p hp]
    simp [calculate_score, hz]

/-- Witness for C1 at concrete inputs. -/
theorem claim_C1_witness :
    0 < eligibleWeight c1Example ∧
    calculate_score c1Example = 10 * earnedWeight c1Example / eligibleWeight c1Example ∧
    calculate_score c1ExampleNA = 0 := by
  have h1 : 0 < eligibleWeight c1Example := by
    simp [eligibleWeight, c1Example]; norm_num
  have h2 : ∀ p ∈ c1ExampleNA, p.2.response = "N/A" := by decide
  exact ⟨h1, (claim_C1 c1Example).1 h1, (claim_C1 c1ExampleNA).2.2 h2⟩

set_option maxHeartbeats 1000000 in
/-- C4: estimate_ranking scans the fixed descending threshold table and
returns the label of the first threshold the score meets or exceeds, each
lower bound inclusive. -/
theorem claim_C4 (s : ℚ) :
    (9.5 ≤ s → estimate_ranking s = "1-3") ∧
    (9 ≤ s → s < 9.5 → estimate_ranking s = "4-6") ∧
    (8.5 ≤ s → s < 9 → estimate_ranking s = "7-10") ∧
    (8 ≤ s → s < 8.5 → estimate_ranking s = "11-15") ∧
    (7.5 ≤ s → s < 8 → estimate_ranking s = "16-20") ∧
    (7 ≤ s → s < 7.5 → estimate_ranking s = "21-30") ∧
    (6.5 ≤ s → s < 7 → estimate_ranking s = "31-50") ∧
    (6 ≤ s → s < 6.5 → estimate_ranking s = "51-100") ∧
    (s < 6 → estimate_ranking s = "100+") := by
  refine ⟨?_, ?_, ?_, ?_, ?_, ?_, ?_, ?_, ?_⟩ <;>
    intros <;> unfold estimate_ranking <;> split_ifs <;> first | rfl | linarith

/-- Witness for C4 at the spec boundary examples, including 9.49999. -/
theorem claim_C4_witness :
    estimate_ranking 9.5 = "1-3" ∧ estimate_ranking 9.49999 = "4-6" ∧
    estimate_ranking 6 = "51-100" ∧ estimate_ranking 0 = "100+" :=
  ⟨(claim_C4 9.5).1 (by norm_num),
   (claim_C4 9.49999).2.1 (by norm_num) (by norm_num),
   (claim_C4 6).2.2.2.2.2.2.2.1 (by norm_num) (by norm_num),
   (claim_C4 0).2.2.2.2.2.2.2.2 (by norm_num)⟩

theorem twoOptions_getD (k : Nat) :
    ((["Yes", "No"] : List String).getD k "No") = "Yes" ∨
    ((["Yes", "No"] : List String).getD k "No") = "No" := by
  match k with
  | 0 => exact Or.inl rfl
  | 1 => exact Or.inr rfl
  | n + 2 => right; simp [List.getD]

theorem gui_from_weights (i : Nat) (criteria : List Criterion) (sel : Nat → Option Nat) :
    (get_user_input_from i criteria sel).map (fun p => p.2.weight) =
      criteria.map Criterion.weight := by
  induction criteria generalizing i with
  | nil => rfl
  | cons c rest ih => simp [get_user_input_from, ih]

theorem eligibleWeight_eq_total (inputs : List (String × CriterionResponse))
    (h : ∀ p ∈ inputs, p.2.response ≠ "N/A") :
    eligibleWeight inputs = (inputs.map (fun p => p.2.weight)).sum := by
  unfold eligibleWeight
  congr 1
  apply List.map_congr_left
  intro p hp
  rw [if_pos (h p hp)]

theorem scenarioInputs_eq :
    scenarioInputs =
      [("Is included on-page at top of heading hierarchy", ⟨"Yes", 10⟩),
       ("Contains proper length", ⟨"Yes", 8⟩),
       ("Contains primary keyword", ⟨"No", 9⟩),
       ("There is only a single H1 tag on-page", ⟨"Yes", 8⟩)] := by
  have h1 : containsOptional "Is included on-page at top of heading hierarchy" = false := by
    decide
  have h2 : containsOptional "Contains proper length" = false := by decide
  have h3 : containsOptional "Contains primary keyword" = false := by decide
  have h4 : containsOptional "There is only a single H1 tag on-page" = false := by decide
  simp [scenarioInputs, get_user_input, get_user_input_from, h1_criteria, scenarioSel,
    judgmentOptions, h1, h2, h3, h4]

theorem scenario_earned : earnedWeight scenarioInputs = 26 := by
  rw [scenarioInputs_eq]
  simp [earnedWeight]
  norm_num

theorem scenario_eligible : eligibleWeight scenarioInputs = 35 := by
  rw [scenarioInputs_eq]
  simp [eligibleWeight]
  norm_num

theorem scenario_calc : calculate_score scenarioInputs = 10 * 26 / 35 := by
  rw [calculate_score, if_pos (by rw [scenario_eligible]; norm_num)]
  rw [scenario_earned, scenario_eligible]
  ring

theorem scenario_overall :
    overall_score scenarioCatalog scenarioWeights scenarioSel = calculate_score scenarioInputs := by
  simp [overall_score, compute_scores, scenarioCatalog, bucket_score, weightOf,
    scenarioWeights, List.lookup, scenarioInputs]

/-- C2: every bucket score is the unweighted arithmetic mean of the factor
scores of the bucket, the denominator being the factor count, however many
criteria each factor contains. -/
theorem claim_C2 (factors : List (String × List Criterion))
    (sel : String → Nat → Option Nat) (h : 0 < factors.length) :
    bucket_score factors sel =
      ((factors.map (fun fc => calculate_score (get_user_input fc.2 (sel fc.1)))).sum) /
        (((factors.map (fun fc => calculate_score (get_user_input fc.2 (sel fc.1)))).length : ℚ)) ∧
    (((factors.map (fun fc => calculate_score (get_user_input fc.2 (sel fc.1)))).length : ℚ)) ≠ 0 := by
  constructor
  · rw [bucket_score, List.length_map]
  · rw [List.length_map]
    exact_mod_cast Nat.pos_iff_ne_zero.mp h

/-- Witness for C2 at the single-factor scenario bucket. -/
theorem claim_C2_witness :
    bucket_score [("H1 Tag", h1_criteria)] scenarioSel =
      (([("H1 Tag", h1_criteria)].map
          (fun fc => calculate_score (get_user_input fc.2 (scenarioSel fc.1)))).sum) /
        ((([("H1 Tag", h1_criteria)].map
          (fun fc => calculate_score (get_user_input fc.2 (scenarioSel fc.1)))).length : ℚ)) ∧
    ((([("H1 Tag", h1_criteria)].map
          (fun fc => calculate_score (get_user_input fc.2 (scenarioSel fc.1)))).length : ℚ)) ≠ 0 :=
  claim_C2 [("H1 Tag", h1_criteria)] scenarioSel (by norm_num)

/-- C5 counterexample: on the scenario catalog (criteria weighted 10, 8, 9,
8 judged Yes, Yes, No, Yes) the code earns 26, not 27, the overall score is
not 10 * 27 / 35, and the estimated rank is not "16-20". -/
theorem claim_C5_counterexample :
    earnedWeight scenarioInputs ≠ 27 ∧
    overall_score scenarioCatalog scenarioWeights scenarioSel ≠ 10 * 27 / 35 ∧
    estimate_ranking (overall_score scenarioCatalog scenarioWeights scenarioSel) ≠ "16-20" := by
  have ho : overall_score scenarioCatalog scenarioWeights scenarioSel = 10 * 26 / 35 := by
    rw [scenario_overall, scenario_calc]
  refine ⟨?_, ?_, ?_⟩
  · rw [scenario_earned]; norm_num
  · rw [ho]; norm_num
  · rw [ho]; norm_num [estimate_ranking]; decide

/-- C5 as amended: the scenario pipeline yields earned 26, eligible 35,
factor = bucket = overall score 10 * 26 / 35, and estimated rank "21-30". -/
theorem claim_C5 :
    earnedWeight scenarioInputs = 26 ∧
    eligibleWeight scenarioInputs = 35 ∧
    calculate_score scenarioInputs = 10 * 26 / 35 ∧
    overall_score scenarioCatalog scenarioWeights scenarioSel = 10 * 26 / 35 ∧
    estimate_ranking (overall_score scenarioCatalog scenarioWeights scenarioSel) = "21-30" := by
  have ho : overall_score scenarioCatalog scenarioWeights scenarioSel = 10 * 26 / 35 := by
    rw [scenario_overall, scenario_calc]
  refine ⟨scenario_earned, scenario_eligible, scenario_calc, ho, ?_⟩
  rw [ho]; norm_num [estimate_ranking]

/-- C10: a response can be "N/A" only for a criterion whose name contains
the substring "optional" (case-insensitive); all other criteria answer
"Yes" or "No", so a factor with no such criterion has eligible weight equal
to its total criterion weight. -/
theorem claim_C10 (criteria : List Criterion) (sel : Nat → Option Nat) :
    (∀ p ∈ get_user_input criteria sel, containsOptional p.1 = false →
      p.2.response = "Yes" ∨ p.2.response = "No") ∧
    ((∀ c ∈ criteria, containsOptional c.name = false) →
      eligibleWeight (get_user_input criteria sel) = (criteria.map Criterion.weight).sum) := by
  constructor
  · intro p hp hopt
    obtain ⟨c, _, k, rfl⟩ := gui_from_shape 0 criteria sel p hp
    have hopts : judgmentOptions c.name = ["Yes", "No"] := by
      simp [judgmentOptions, hopt]
    show (judgmentOptions c.name).getD k "No" = "Yes" ∨
      (judgmentOptions c.name).getD k "No" = "No"
    rw [hopts]
    exact twoOptions_getD k
  · intro hall
    have hne : ∀ p ∈ get_user_input criteria sel, p.2.response ≠ "N/A" := by
      intro p hp
      obtain ⟨c, hc, k, rfl⟩ := gui_from_shape 0 criteria sel p hp
      have hopts : judgmentOptions c.name = ["Yes", "No"] := by
        simp [judgmentOptions, hall c hc]
      show (judgmentOptions c.name).getD k "No" ≠ "N/A"
      rw [hopts]
      rcases twoOptions_getD k with h | h <;> rw [h] <;> decide
    rw [eligibleWeight_eq_total _ hne, get_user_input, gui_from_weights]

/-- Witness for C10: the H1 criteria offer no "N/A" even under an
out-of-range selection index, and their eligible weight is the total. -/
theorem claim_C10_witness :
    eligibleWeight (get_user_input h1_criteria (fun _ => some 2)) =
      (h1_criteria.map Criterion.weight).sum ∧
    (("Is included on-page at top of heading hierarchy",
        (⟨"No", 10⟩ : CriterionResponse)).2.response = "Yes" ∨
     ("Is included on-page at top of heading hierarchy",
        (⟨"No", 10⟩ : CriterionResponse)).2.response = "No") := by
  have h := claim_C10 h1_criteria (fun _ => some 2)
  exact ⟨h.2 (by decide),
    h.1 ("Is included on-page at top of heading hierarchy", ⟨"No", 10⟩)
      (by decide) (by decide)⟩

theorem gui_from_allYes (i : Nat) (criteria : List Criterion) :
    get_user_input_from i criteria (fun _ => some 0) =
      criteria.map (fun c => (c.name, ⟨"Yes", c.weight⟩)) := by
  induction criteria generalizing i with
  | nil => rfl
  | cons c rest ih => simp [get_user_input_from, ih, judgmentOptions_getElem_zero]

theorem earnedWeight_allYes (criteria : List Criterion) :
    earnedWeight (criteria.map (fun c => (c.name, ⟨"Yes", c.weight⟩))) =
      (criteria.map Criterion.weight).sum := by
  simp only [earnedWeight, List.map_map]
  congr 1

theorem eligibleWeight_allYes (criteria : List Criterion) :
    eligibleWeight (criteria.map (fun c => (c.name, ⟨"Yes", c.weight⟩))) =
      (criteria.map Criterion.weight).sum := by
  simp only [eligibleWeight, List.map_map]
  congr 1

theorem calc_allYes (criteria : List Criterion) (hne : criteria ≠ [])
    (hw : ∀ c ∈ criteria, 0 < c.weight) :
    calculate_score (get_user_input criteria (fun _ => some 0)) = 10 := by
  rw [get_user_input, gui_from_allYes]
  have htot : 0 < (criteria.map Criterion.weight).sum := by
    apply List.sum_pos
    · intro x hx
      obtain ⟨c, hc, rfl⟩ := List.mem_map.mp hx
      exact hw c hc
    · simpa using hne
  have h0 : 0 < eligibleWeight (criteria.map (fun c => (c.name, ⟨"Yes", c.weight⟩))) := by
    rw [eligibleWeight_allYes]; exact htot
  rw [calculate_score, if_pos h0, earnedWeight_allYes, eligibleWeight_allYes,
    div_self (ne_of_gt htot), one_mul]

theorem bucket_allYes (factors : List (String × List Criterion)) (hne : factors ≠ [])
    (hf : ∀ fc ∈ factors, fc.2 ≠ [] ∧ ∀ c ∈ fc.2, 0 < c.weight) :
    bucket_score factors allYesSel = 10 := by
  unfold bucket_score
  have hmap : factors.map (fun fc => calculate_score (get_user_input fc.2 (allYesSel fc.1)))
      = factors.map (fun _ => (10 : ℚ)) :=
    List.map_congr_left (fun fc hfc => calc_allYes fc.2 (hf fc hfc).1 (hf fc hfc).2)
  have hn : (factors.length : ℚ) ≠ 0 := by
    have : factors.length ≠ 0 := fun h => hne (List.length_eq_zero.mp h)
    exact_mod_cast this
  rw [hmap, List.map_const', List.sum_replicate, nsmul_eq_mul, mul_comm,
    mul_div_assoc, div_self hn, mul_one]

theorem catalog_ok :
    ∀ bf ∈ seo_factors, bf.2 ≠ [] ∧ ∀ fc ∈ bf.2, fc.2 ≠ [] ∧ ∀ c ∈ fc.2, 0 < c.weight := by
  decide

theorem weights_fst_sum :
    (seo_factors.map (fun bf => weightOf bucket_weights bf.1)).sum = 1 := by
  simp [seo_factors, weightOf, bucket_weights, List.lookup]
  norm_num

theorem weightOf_nonneg (b : String) : 0 ≤ weightOf bucket_weights b := by
  unfold weightOf bucket_weights
  simp only [List.lookup]
  repeat' split
  all_goals norm_num

theorem compute_scores_fst_map (catalog : List (String × List (String × List Criterion)))
    (sel : String → Nat → Option Nat) (f : String → ℚ) :
    (compute_scores catalog sel).map (fun p => f p.1) = catalog.map (fun bf => f bf.1) := by
  simp [compute_scores, List.map_map, Function.comp]

/-- C3: the three fixed bucket weights sum to exactly 1, and the overall
score of the all-Yes response set over the full catalog is exactly 10. -/
theorem claim_C3 :
    (bucket_weights.map Prod.snd).sum = 1 ∧
    overall_score seo_factors bucket_weights allYesSel = 10 := by
  constructor
  · simp [bucket_weights]; norm_num
  · unfold overall_score
    have hb : ∀ p ∈ compute_scores seo_factors allYesSel, p.2 = 10 := by
      intro p hp
      obtain ⟨bf, hbf, rfl⟩ := List.mem_map.mp hp
      exact bucket_allYes bf.2 (catalog_ok bf hbf).1 (catalog_ok bf hbf).2
    have hmap : (compute_scores seo_factors allYesSel).map
          (fun p => p.2 * weightOf bucket_weights p.1)
        = (compute_scores seo_factors allYesSel).map
          (fun p => 10 * weightOf bucket_weights p.1) :=
      List.map_congr_left (fun p hp => by rw [hb p hp])
    rw [hmap, List.sum_map_mul_left, compute_scores_fst_map, weights_fst_sum, mul_one]

theorem earnedWeight_nonneg (inputs : List (String × CriterionResponse))
    (h : ∀ p ∈ inputs, 0 ≤ p.2.weight) : 0 ≤ earnedWeight inputs := by
  unfold earnedWeight
  apply List.sum_nonneg
  intro x hx
  obtain ⟨p, hp, rfl⟩ := List.mem_map.mp hx
  split
  · exact h p hp
  · exact le_refl 0

theorem earned_le_eligible (inputs : List (String × CriterionResponse))
    (h : ∀ p ∈ inputs, 0 ≤ p.2.weight) :
    earnedWeight inputs ≤ eligibleWeight inputs := by
  unfold earnedWeight eligibleWeight
  apply List.sum_le_sum
  intro p hp
  by_cases hy : p.2.response = "Yes"
  · have hnA : p.2.response ≠ "N/A" := by rw [hy]; decide
    rw [if_pos hy, if_pos hnA]
  · rw [if_neg hy]
    split
    · exact h p hp
    · exact le_refl 0

theorem calculate_score_nonneg (inputs : List (String × CriterionResponse))
    (h : ∀ p ∈ inputs, 0 ≤ p.2.weight) : 0 ≤ calculate_score inputs := by
  unfold calculate_score
  split
  next hpos =>
    exact mul_nonneg (div_nonneg (earnedWeight_nonneg inputs h) hpos.le) (by norm_num)
  next => exact le_refl 0

theorem calculate_score_le_ten (inputs : List (String × CriterionResponse))
    (h : ∀ p ∈ inputs, 0 ≤ p.2.weight) : calculate_score inputs ≤ 10 := by
  unfold calculate_score
  split
  next hpos =>
    have hle : earnedWeight inputs / eligibleWeight inputs ≤ 1 :=
      (div_le_one hpos).mpr (earned_le_eligible inputs h)
    calc earnedWeight inputs / eligibleWeight inputs * 10 ≤ 1 * 10 :=
          mul_le_mul_of_nonneg_right hle (by norm_num)
      _ = 10 := one_mul 10
  next => norm_num

theorem gui_weights_nonneg (criteria : List Criterion) (sel : Nat → Option Nat)
    (hw : ∀ c ∈ criteria, 0 ≤ c.weight) :
    ∀ p ∈ get_user_input criteria sel, 0 ≤ p.2.weight := by
  intro p hp
  obtain ⟨c, hc, k, rfl⟩ := gui_from_shape 0 criteria sel p hp
  exact hw c hc

theorem bucket_bounds (factors : List (String × List Criterion))
    (sel : String → Nat → Option Nat) (hne : factors ≠ [])
    (hw : ∀ fc ∈ factors, ∀ c ∈ fc.2, 0 ≤ c.weight) :
    0 ≤ bucket_score factors sel ∧ bucket_score factors sel ≤ 10 := by
  unfold bucket_score
  have hlen : (0 : ℚ) < (factors.length : ℚ) := by
    have : factors.length ≠ 0 := fun h => hne (List.length_eq_zero.mp h)
    exact_mod_cast Nat.pos_of_ne_zero this
  have hmem : ∀ x ∈ factors.map
      (fun fc => calculate_score (get_user_input fc.2 (sel fc.1))), 0 ≤ x ∧ x ≤ 10 := by
    intro x hx
    obtain ⟨fc, hfc, rfl⟩ := List.mem_map.mp hx
    have hwf := gui_weights_nonneg fc.2 (sel fc.1) (hw fc hfc)
    exact ⟨calculate_score_nonneg _ hwf, calculate_score_le_ten _ hwf⟩
  constructor
  · exact div_nonneg (List.sum_nonneg (fun x hx => (hmem x hx).1)) hlen.le
  · rw [div_le_iff₀ hlen]
    have hcard := List.sum_le_card_nsmul
      (factors.map (fun fc => calculate_score (get_user_input fc.2 (sel fc.1)))) 10
      (fun x hx => (hmem x hx).2)
    rw [List.length_map, nsmul_eq_mul] at hcard
    linarith

/-- C8: for every response set over the catalog, every factor score, every
bucket score and the overall score lie in the closed interval from 0 to 10. -/
theorem claim_C8 (sel : String → Nat → Option Nat) :
    (∀ b factors, (b, factors) ∈ seo_factors → ∀ f criteria, (f, criteria) ∈ factors →
      0 ≤ calculate_score (get_user_input criteria (sel f)) ∧
      calculate_score (get_user_input criteria (sel f)) ≤ 10) ∧
    (∀ p ∈ compute_scores seo_factors sel, 0 ≤ p.2 ∧ p.2 ≤ 10) ∧
    0 ≤ overall_score seo_factors bucket_weights sel ∧
    overall_score seo_factors bucket_weights sel ≤ 10 := by
  have hcat := catalog_ok
  have hfac : ∀ p ∈ compute_scores seo_factors sel, 0 ≤ p.2 ∧ p.2 ≤ 10 := by
    intro p hp
    obtain ⟨bf, hbf, rfl⟩ := List.mem_map.mp hp
    exact bucket_bounds bf.2 sel (hcat bf hbf).1
      (fun fc hfc c hc => (((hcat bf hbf).2 fc hfc).2 c hc).le)
  refine ⟨?_, hfac, ?_, ?_⟩
  · intro b factors hb f criteria hf
    have hwf := gui_weights_nonneg criteria (sel f)
      (fun c hc => ((((hcat (b, factors) hb).2) (f, criteria) hf).2 c hc).le)
    exact ⟨calculate_score_nonneg _ hwf, calculate_score_le_ten _ hwf⟩
  · unfold overall_score
    apply List.sum_nonneg
    intro x hx
    obtain ⟨p, hp, rfl⟩ := List.mem_map.mp hx
    exact mul_nonneg (hfac p hp).1 (weightOf_nonneg p.1)
  · unfold overall_score
    have hmono : ((compute_scores seo_factors sel).map
          (fun p => p.2 * weightOf bucket_weights p.1)).sum ≤
        ((compute_scores seo_factors sel).map
          (fun p => 10 * weightOf bucket_weights p.1)).sum :=
      List.sum_le_sum (fun p hp =>
        mul_le_mul_of_nonneg_right (hfac p hp).2 (weightOf_nonneg p.1))
    have h10 : ((compute_scores seo_factors sel).map
          (fun p => 10 * weightOf bucket_weights p.1)).sum = 10 := by
      rw [List.sum_map_mul_left, compute_scores_fst_map, weights_fst_sum, mul_one]
    linarith

/-- Witness for C8 at a concrete catalog factor and selection. -/
theorem claim_C8_witness :
    (0 ≤ calculate_score (get_user_input [⟨"Page is served over HTTPS", 5⟩]
        (hreflangNASel "HTTPS")) ∧
      calculate_score (get_user_input [⟨"Page is served over HTTPS", 5⟩]
        (hreflangNASel "HTTPS")) ≤ 10) ∧
    0 ≤ overall_score seo_factors bucket_weights hreflangNASel ∧
    overall_score seo_factors bucket_weights hreflangNASel ≤ 10 := by
  have h := claim_C8 hreflangNASel
  exact ⟨h.1 "Technical" technicalFactors (by decide) "HTTPS"
      [⟨"Page is served over HTTPS", 5⟩] (by decide), h.2.2.1, h.2.2.2⟩

/-- C6 counterexample: a criterion whose widget was never touched is scored
as "No" and a score (0) is produced; no error path exists. -/
theorem claim_C6_counterexample :
    get_user_input [⟨"Contains proper length", 8⟩] (fun _ => none)
      = [("Contains proper length", ⟨"No", 8⟩)] ∧
    calculate_score (get_user_input [⟨"Contains proper length", 8⟩] (fun _ => none)) = 0 := by
  have h : containsOptional "Contains proper length" = false := by decide
  refine ⟨?_, ?_⟩
  · simp [get_user_input, get_user_input_from, judgmentOptions, h]
  · simp [get_user_input, get_user_input_from, judgmentOptions, h,
      calculate_score, earnedWeight, eligibleWeight]

/-- C6 as amended: every criterion always receives a judgment (the widget
defaults to "No", index 1, when unset), so scoring never sees a missing
judgment and never raises; unset entries are scored as "No". -/
theorem claim_C6 (criteria : List Criterion) (sel : Nat → Option Nat) :
    (get_user_input criteria sel).map Prod.fst = criteria.map Criterion.name ∧
    ∀ p ∈ get_user_input criteria (fun _ => none), p.2.response = "No" := by
  refine ⟨gui_from_names 0 criteria sel, ?_⟩
  intro p hp
  rw [get_user_input, gui_from_unset] at hp
  obtain ⟨c, _, rfl⟩ := List.mem_map.mp hp
  rfl

/-- Witness for C6 at a concrete criterion list. -/
theorem claim_C6_witness :
    (get_user_input [⟨"Short length", 3⟩] (fun _ => none)).map Prod.fst =
      ([⟨"Short length", 3⟩] : List Criterion).map Criterion.name ∧
    (("Short length", (⟨"No", 3⟩ : CriterionResponse)).2.response = "No") := by
  have h := claim_C6 [⟨"Short length", 3⟩] (fun _ => none)
  exact ⟨h.1, h.2 ("Short length", ⟨"No", 3⟩) (by decide)⟩

theorem placeholder_rendered :
    render_recommendations "Unable to generate recommendations at this time." =
      [DocItem.para "Unable to generate recommendations at this time."] := by decide

/-- C7: when the external recommendation call fails, scoring output is
exported unchanged and the report carries the fixed placeholder paragraph
in its Recommendations section; but on the no-credential path the local
variable holding the recommendations is never assigned, the report stage
raises UnboundLocalError, and no report is produced. -/
theorem claim_C7 :
    (∀ (r : Except String String) inputs scores ranking,
      main_report none r inputs scores ranking =
        Except.error "UnboundLocalError: recommendations") ∧
    (∀ (key e : String) inputs scores ranking,
      main_report (some key) (Except.error e) inputs scores ranking =
        Except.ok (export_to_word inputs scores
          "Unable to generate recommendations at this time." ranking) ∧
      DocItem.para "Unable to generate recommendations at this time." ∈
        export_to_word inputs scores
          "Unable to generate recommendations at this time." ranking) := by
  refine ⟨fun r inputs scores ranking => rfl,
    fun key e inputs scores ranking => ⟨rfl, ?_⟩⟩
  unfold export_to_word
  simp [placeholder_rendered, List.mem_append]

set_option maxRecDepth 10000 in
/-- C9 counterexample: with the Hreflang criterion judged "N/A" in the
collected inputs, the Selected Criteria section of the export contains no
paragraph mentioning that criterion at all, so an "N/A" criterion is
omitted rather than listed with an annotation. -/
theorem claim_C9_counterexample :
    (((inputsNA.lookup "Technical").getD []).lookup "Hreflang Tag").getD []
      = [(hreflangName, ⟨"N/A", 6⟩)] ∧
    ((selected_criteria inputsNA).all (fun item =>
      match item with
      | DocItem.para t => !(strContains t "Hreflang")
      | _ => true)) = true := by
  exact ⟨by decide, by decide⟩

/-- C9 as amended: the Selected Criteria checklist renders exactly the
criteria whose judgment is not "N/A", each as a paragraph carrying its
final judgment, in order; criteria judged "N/A" are omitted entirely. -/
theorem claim_C9 (responses : List (String × CriterionResponse)) :
    factor_checklist responses =
      (responses.filter (fun p => p.2.response != "N/A")).map
        (fun p => DocItem.para (p.1 ++ ": " ++ p.2.response)) := by
  induction responses with
  | nil => rfl
  | cons p rest ih =>
      by_cases h : p.2.response = "N/A" <;>
        · simp [factor_checklist, List.filterMap_cons, List.filter_cons, h]
          simpa [factor_checklist] using ih
